import Mathlib

/-!
Verification development for the disaster-dashboard extraction pipeline
(`src/app.py`).  The core under study is:

* `_to_number`       — permissive numeric coercion of a spreadsheet cell;
* `extract_province_section` — locating the "Kode Wilayah Provinsi" section
  in a raw `pandas.DataFrame` and normalising it into province records;
* `pd.concat`        — concatenation of the per-year tables.

Modelling conventions:

* A spreadsheet cell is `Cell`: missing (`NaN`), text, or a number.
  Numbers are modelled as exact rationals (`ℚ`); binary floating-point
  rounding and the non-finite literals (`inf`, `nan`) are outside the model.
* A `pandas.DataFrame` is `RawGrid`: an explicit column count `ncols`
  together with the rows; a row shorter than `ncols` is padded with
  missing cells and entries beyond `ncols` do not exist in the frame,
  matching how `pd.read_excel` frames a sheet.  The default integer
  index of such a frame makes label- and position-based row access agree,
  as the source assumes.
* Python string operations used by the source (`strip`, `title`,
  `isdigit`, `startswith`, substring containment, `str()` of a value,
  comma removal) are modelled as explicit functions over `List Char`;
  they follow Python's ASCII behaviour (the source data is ASCII plus
  the dash variants).
* Fallible paths are explicit: `extract_province_section` returns
  `Except ExtractError _` with one constructor per distinct `raise`
  site reachable in the source (`df_raw.columns[0]` on a zero-column
  frame raises `IndexError`; the missing marker raises the
  `ValueError` that the spec calls `StructureError`; assigning 13
  column names to a narrower frame raises pandas' length-mismatch
  `ValueError`).
-/

/-- A cell of the raw grid: `NaN`/missing, a text cell, or a numeric cell
(modelled as an exact rational). -/
inductive Cell where
  | missing : Cell
  | text (s : String) : Cell
  | num (q : ℚ) : Cell
deriving DecidableEq

/-- `pd.isna` on a single cell. -/
def Cell.isMissing : Cell → Bool
  | .missing => true
  | _ => false

/-- Characters stripped by Python `str.strip()` (ASCII whitespace). -/
def isPySpace (c : Char) : Bool :=
  c = ' ' || c = '\t' || c = '\n' || c = '\r' || c = '\x0b' || c = '\x0c'

/-- Python `str.strip()`: drop leading and trailing whitespace. -/
def pyStrip (s : String) : String :=
  ⟨((s.data.dropWhile isPySpace).reverse.dropWhile isPySpace).reverse⟩

/-- Python `str.replace(",", "")`: remove every comma. -/
def stripCommas (s : String) : String :=
  ⟨s.data.filter (fun c => !(c = ','))⟩

/-- Value of a decimal digit character. -/
def digitVal (c : Char) : Nat := c.toNat - '0'.toNat

/-- Numeric value of a most-significant-first digit string. -/
def natOfDigits (cs : List Char) : Nat :=
  cs.foldl (fun a c => 10 * a + digitVal c) 0

/-- Drop trailing `'0'` characters. -/
def trimZeros (cs : List Char) : List Char :=
  (cs.reverse.dropWhile (fun c => c = '0')).reverse

/-- Python `str()` of a float cell.  Exact for integral values
(`str(11.0) = "11.0"`); for other rationals it renders the sign, the
integer part and up to 17 truncated fractional digits, which is the
right shape (sign, digits, one dot) everywhere the source consumes such
text (marker search, `startswith("-")`, `isdigit`). -/
def pyNumStr (q : ℚ) : String :=
  let sign := if q < 0 then "-" else ""
  let a : ℚ := |q|
  let ip : Nat := a.floor.toNat
  let fd : Nat := ((a - (ip : ℚ)) * 10 ^ 17).floor.toNat
  let ds := Nat.toDigits 10 fd
  let padded := List.replicate (17 - ds.length) '0' ++ ds
  let frac := trimZeros padded
  sign ++ toString ip ++ "." ++ ⟨if frac.isEmpty then ['0'] else frac⟩

/-- `astype(str)` on one cell: `NaN` prints as `"nan"`, text is itself,
numbers print as Python floats. -/
def pyStr : Cell → String
  | .missing => "nan"
  | .text s => s
  | .num q => pyNumStr q

/-- The section marker literal of the source. -/
def sectionMarker : String := "Kode Wilayah Provinsi"

/-- Does `p` match a leading segment of `l`? -/
def leadMatch : List Char → List Char → Bool
  | [], _ => true
  | _ :: _, [] => false
  | p :: ps, c :: cs => p = c && leadMatch ps cs

/-- Case-sensitive substring containment over character lists
(the semantics of `str.contains` for a pattern free of regex
metacharacters, as the marker is). -/
def hasSub (p : List Char) : List Char → Bool
  | [] => p.isEmpty
  | c :: cs => leadMatch p (c :: cs) || hasSub p cs

/-- Does this cell's text contain the section marker? -/
def cellHasMarker (c : Cell) : Bool :=
  hasSub sectionMarker.data (pyStr c).data

/-- Python `str.startswith("-")`. -/
def startsWithDash (s : String) : Bool :=
  match s.data with
  | '-' :: _ => true
  | _ => false

/-- Python `str.isdigit()` (ASCII): non-empty and all decimal digits. -/
def pyIsDigit (s : String) : Bool :=
  !s.data.isEmpty && s.data.all Char.isDigit

/-- One step of Python `str.title()`: upper-case a letter that starts a
letter run, lower-case the rest, leave other characters alone. -/
def titleAux : List Char → Bool → List Char
  | [], _ => []
  | c :: t, prevAlpha =>
    if c.isAlpha then
      (if prevAlpha then c.toLower else c.toUpper) :: titleAux t true
    else
      c :: titleAux t false

/-- Python `str.title()`. -/
def pyTitle (s : String) : String := ⟨titleAux s.data false⟩

/-- Parser state after the integer and fraction digits: fail when both
are empty, otherwise build the mantissa and look at an exponent. -/
def pyExpDigits (mant : ℚ) (sg : Int) (u : List Char) : Option ℚ :=
  if u.isEmpty || !(u.all Char.isDigit) then none
  else some (mant * (10 : ℚ) ^ (sg * (natOfDigits u : Int)))

/-- Optional exponent part of a Python float literal. -/
def pyExp (mant : ℚ) : List Char → Option ℚ
  | [] => some mant
  | c :: t =>
    if c = 'e' || c = 'E' then
      match t with
      | '+' :: u => pyExpDigits mant 1 u
      | '-' :: u => pyExpDigits mant (-1) u
      | u => pyExpDigits mant 1 u
    else none

/-- Mantissa from integer digits `ip` and fraction digits `fp`, then the
exponent from `r2`. -/
def pyAfterFrac (ip fp r2 : List Char) : Option ℚ :=
  if ip.isEmpty && fp.isEmpty then none
  else pyExp ((natOfDigits ip : ℚ) + (natOfDigits fp : ℚ) / (10 : ℚ) ^ fp.length) r2

/-- After the integer digits: an optional `.` plus fraction digits. -/
def pyAfterInt (ip : List Char) : List Char → Option ℚ
  | '.' :: t => pyAfterFrac ip (t.takeWhile Char.isDigit) (t.dropWhile Char.isDigit)
  | r => pyAfterFrac ip [] r

/-- Unsigned body of a Python float literal. -/
def pyFloatAux (cs : List Char) : Option ℚ :=
  pyAfterInt (cs.takeWhile Char.isDigit) (cs.dropWhile Char.isDigit)

/-- Python `float(s)` on an already-stripped string: optional sign, then
digits with optional fraction and exponent.  `none` models the
`ValueError` of an unparseable literal.  (Digit-group underscores and
the non-finite literals are outside the model.) -/
def pyFloat? (s : String) : Option ℚ :=
  match s.data with
  | [] => none
  | c :: t =>
    if c = '+' then pyFloatAux t
    else if c = '-' then (pyFloatAux t).map (fun q => -q)
    else pyFloatAux (c :: t)

/-- `_to_number` of the source: `NaN` and the dash placeholders go to 0,
text is stripped, de-comma-ed and parsed with failure defaulting to 0,
and numeric cells convert directly. -/
def to_number (c : Cell) : ℚ :=
  match c with
  | .missing => 0
  | .text s =>
    let t := pyStrip s
    if t = "-" ∨ t = "—" ∨ t = "–" ∨ t = "" then 0
    else (pyFloat? (stripCommas t)).getD 0
  | .num q => q

/-- Modelled from the spec: the numeric coercion rule with its failure
made explicit — `none` exactly where the source's `float(...)` raises
and the bare `0` default kicks in, `some` where a value is produced
(missing cells and dash placeholders deliberately coerce to `some 0`). -/
def to_number_fallible (c : Cell) : Option ℚ :=
  match c with
  | .missing => some 0
  | .text s =>
    let t := pyStrip s
    if t = "-" ∨ t = "—" ∨ t = "–" ∨ t = "" then some 0
    else pyFloat? (stripCommas t)
  | .num q => some q

/-- Cleaning of `Kode_Provinsi`: a cell whose stripped text is all
digits becomes `str(int(x))` (canonical integer text), otherwise the
stripped text itself. -/
def clean_code (c : Cell) : String :=
  let s := pyStrip (pyStr c)
  if pyIsDigit s then toString (natOfDigits s.data) else s

/-- A raw `pandas.DataFrame`: its column count and its rows.  A row is
padded with missing cells up to `ncols` and truncated beyond it. -/
structure RawGrid where
  ncols : Nat
  rows : List (List Cell)

/-- Take exactly `n` items, padding with `d` when the list is shorter. -/
def takePad (n : Nat) (l : List α) (d : α) : List α :=
  match n, l with
  | 0, _ => []
  | n + 1, [] => d :: takePad n [] d
  | n + 1, a :: t => a :: takePad n t d

/-- A row as the frame holds it: padded/truncated to the frame width. -/
def frameRow (g : RawGrid) (r : List Cell) : List Cell :=
  takePad g.ncols r Cell.missing

/-- Index of the first list element satisfying `p`. -/
def findIdxO (p : α → Bool) : List α → Option Nat
  | [] => none
  | a :: t => if p a then some 0 else (findIdxO p t).map (· + 1)

/-- First-column marker test of one row (`df_raw[first_col]` search). -/
def rowFirstColMarker (r : List Cell) : Bool :=
  cellHasMarker (r.getD 0 Cell.missing)

/-- Any-cell marker test of one row (the fallback search). -/
def rowAnyMarker (g : RawGrid) (r : List Cell) : Bool :=
  (frameRow g r).any cellHasMarker

/-- Marker row location: first column first, then every cell. -/
def markerRow (g : RawGrid) : Option Nat :=
  match findIdxO rowFirstColMarker g.rows with
  | some i => some i
  | none => findIdxO (fun r => rowAnyMarker g r) g.rows

/-- No cell of the frame contains the marker. -/
def gridNoMarker (g : RawGrid) : Bool :=
  g.rows.all (fun r => (frameRow g r).all (fun c => !cellHasMarker c))

/-- Some cell of the frame contains the marker. -/
def gridHasMarker (g : RawGrid) : Bool :=
  g.rows.any (fun r => rowAnyMarker g r)

/-- The normalised province record: the 13 positional columns of the
source schema, the caller's year, and the derived total. -/
structure ProvinceRecord where
  Kode_Provinsi : String
  Provinsi : String
  Jumlah_Kejadian : ℚ
  Meninggal_Hilang : ℚ
  Luka_Luka : ℚ
  Mengungsi_Terdampak : ℚ
  Rumah_Rusak_Berat : ℚ
  Rumah_Rusak_Sedang : ℚ
  Rumah_Rusak_Ringan : ℚ
  Rumah_Terendam : ℚ
  Fasilitas_Pendidikan : ℚ
  Fasilitas_Peribadatan : ℚ
  Fasilitas_Kesehatan : ℚ
  Tahun : Int
  Total_Dampak_Indikator : ℚ
deriving DecidableEq

/-- Row filter of the source: `dropna` on the code and name cells
(`NaN` only — an empty text cell is not `NaN`), then exclusion of codes
whose text starts with `-`. -/
def rowKept (r : List Cell) : Bool :=
  !(r.getD 0 Cell.missing).isMissing &&
  !(r.getD 1 Cell.missing).isMissing &&
  !startsWithDash (pyStr (r.getD 0 Cell.missing))

/-- Build one record from a kept 13-column row. -/
def mkRecord (year : Int) (r : List Cell) : ProvinceRecord :=
  { Kode_Provinsi := clean_code (r.getD 0 Cell.missing)
    Provinsi := pyTitle (pyStrip (pyStr (r.getD 1 Cell.missing)))
    Jumlah_Kejadian := to_number (r.getD 2 Cell.missing)
    Meninggal_Hilang := to_number (r.getD 3 Cell.missing)
    Luka_Luka := to_number (r.getD 4 Cell.missing)
    Mengungsi_Terdampak := to_number (r.getD 5 Cell.missing)
    Rumah_Rusak_Berat := to_number (r.getD 6 Cell.missing)
    Rumah_Rusak_Sedang := to_number (r.getD 7 Cell.missing)
    Rumah_Rusak_Ringan := to_number (r.getD 8 Cell.missing)
    Rumah_Terendam := to_number (r.getD 9 Cell.missing)
    Fasilitas_Pendidikan := to_number (r.getD 10 Cell.missing)
    Fasilitas_Peribadatan := to_number (r.getD 11 Cell.missing)
    Fasilitas_Kesehatan := to_number (r.getD 12 Cell.missing)
    Tahun := year
    Total_Dampak_Indikator :=
      to_number (r.getD 2 Cell.missing) + to_number (r.getD 3 Cell.missing) +
      to_number (r.getD 4 Cell.missing) + to_number (r.getD 5 Cell.missing) +
      to_number (r.getD 6 Cell.missing) + to_number (r.getD 7 Cell.missing) +
      to_number (r.getD 8 Cell.missing) }

/-- Normalise the candidate rows: slice the first 13 frame columns
(short rows gain missing trailing cells), filter, and build records. -/
def processRows (year : Int) (rows : List (List Cell)) : List ProvinceRecord :=
  (((rows.map (fun r => takePad 13 r Cell.missing)).filter rowKept).map (mkRecord year))

/-- The three distinct `raise` sites reachable through
`extract_province_section`. -/
inductive ExtractError where
  | indexError : ExtractError
  | structureError : ExtractError
  | lengthMismatch : ExtractError
deriving DecidableEq

/-- `extract_province_section` of the source.  `df_raw.columns[0]`
raises on a zero-column frame; a missing marker raises the structure
`ValueError`; `df.columns = EXPECTED_COLS` raises pandas'
length-mismatch `ValueError` when the frame has fewer than 13 columns;
otherwise the rows strictly after the marker row are normalised.
Under the 13-column guard, slicing a frame row to the first 13 columns
equals `takePad 13 r missing` on the raw row, which is how
`processRows` slices. -/
def extract_province_section (g : RawGrid) (year : Int) : Except ExtractError (List ProvinceRecord) :=
  if g.ncols = 0 then .error .indexError
  else
    match markerRow g with
    | none => .error .structureError
    | some i =>
      if g.ncols < 13 then .error .lengthMismatch
      else .ok (processRows year (g.rows.drop (i + 1)))

/-- `pd.concat` with `ignore_index=True`: concatenation in input order. -/
def pd_concat (ts : List (List ProvinceRecord)) : List ProvinceRecord :=
  ts.flatten

/-- A well-formed grid used by witnesses: the spec's own end-to-end
example, marker row then one Aceh data row. -/
def wGrid : RawGrid :=
  ⟨13, [[Cell.text "Kode Wilayah Provinsi"],
        [Cell.text "11", Cell.text "Aceh", Cell.text "5", Cell.text "2",
         Cell.text "-", Cell.text "100"]]⟩

/-- The single record extracted from `wGrid`. -/
def wRec : ProvinceRecord :=
  mkRecord 2023 (takePad 13 [Cell.text "11", Cell.text "Aceh", Cell.text "5",
    Cell.text "2", Cell.text "-", Cell.text "100"] Cell.missing)

/-- A zero-column frame (`pd.DataFrame()`), trivially marker-free. -/
def emptyGrid : RawGrid := ⟨0, []⟩

/-- A markerless single-cell grid. -/
def plainGrid : RawGrid := ⟨1, [[Cell.text "hello"]]⟩

/-- A grid whose code cell holds the empty string (not `NaN`). -/
def emptyCodeGrid : RawGrid :=
  ⟨13, [[Cell.text "Kode Wilayah Provinsi"],
        [Cell.text "", Cell.text "Aceh"]]⟩

/-- A marker-bearing frame that is only two columns wide. -/
def narrowGrid : RawGrid :=
  ⟨2, [[Cell.text "Kode Wilayah Provinsi"], [Cell.text "11", Cell.text "Aceh"]]⟩

/-- A grid whose event-count cell is the well-formed negative `"-5"`. -/
def negGrid : RawGrid :=
  ⟨13, [[Cell.text "Kode Wilayah Provinsi"],
        [Cell.text "11", Cell.text "Aceh", Cell.text "-5"]]⟩

/-- The record extracted from `negGrid`. -/
def negRec : ProvinceRecord :=
  mkRecord 2023 (takePad 13 [Cell.text "11", Cell.text "Aceh", Cell.text "-5"] Cell.missing)

/-- Thirteen-wide grid with a short data row, for the claim-3 witness. -/
def shortRowGrid : RawGrid :=
  ⟨13, [[Cell.text "Kode Wilayah Provinsi"], [Cell.text "11", Cell.text "Aceh"]]⟩

/-- Fourteen-wide grid agreeing with `shortRowGrid` on the first 13
columns of every data row but carrying an extra 14th column. -/
def wideRowGrid : RawGrid :=
  ⟨14, [[Cell.text "Kode Wilayah Provinsi"],
        [Cell.text "11", Cell.text "Aceh"] ++ List.replicate 11 Cell.missing ++
          [Cell.text "extra"]]⟩

/-! Helper lemmas about the list machinery of the embedding. -/

theorem takePad_length (n : Nat) (l : List α) (d : α) : (takePad n l d).length = n := by
  induction n generalizing l with
  | zero => simp [takePad]
  | succ n ih =>
    cases l with
    | nil => simp [takePad, ih]
    | cons a t => simp [takePad, ih]

theorem takePad_getD_zero (n : Nat) (hn : 0 < n) (l : List α) (d : α) :
    (takePad n l d).getD 0 d = l.getD 0 d := by
  cases n with
  | zero => omega
  | succ n => cases l <;> simp [takePad]

theorem getD_zero_mem (l : List α) (d : α) (h : l ≠ []) : l.getD 0 d ∈ l := by
  cases l with
  | nil => exact absurd rfl h
  | cons a t => simp

theorem takePad_ne_nil (n : Nat) (hn : 0 < n) (l : List α) (d : α) :
    takePad n l d ≠ [] := by
  intro h
  have := takePad_length n l d
  rw [h] at this
  simp at this
  omega

theorem findIdxO_eq_none_iff (p : α → Bool) (l : List α) :
    findIdxO p l = none ↔ ∀ a ∈ l, p a = false := by
  induction l with
  | nil => simp [findIdxO]
  | cons a t ih =>
    by_cases h : p a = true
    · simp [findIdxO, h]
    · simp only [Bool.not_eq_true] at h
      simp [findIdxO, h, ih, Option.map_eq_none]

theorem findIdxO_some_char (p : α → Bool) (d : α) :
    ∀ (l : List α) (i : Nat), findIdxO p l = some i →
      i < l.length ∧ p (l.getD i d) = true ∧ ∀ j, j < i → p (l.getD j d) = false := by
  intro l
  induction l with
  | nil => intro i h; simp [findIdxO] at h
  | cons a t ih =>
    intro i h
    by_cases hp : p a = true
    · simp [findIdxO, hp] at h
      subst h
      exact ⟨by simp, by simpa using hp, by omega⟩
    · simp only [Bool.not_eq_true] at hp
      simp [findIdxO, hp, Option.map_eq_some] at h
      obtain ⟨i', hi', rfl⟩ := h
      obtain ⟨hlen, hat, hbefore⟩ := ih i' hi'
      refine ⟨by simpa using hlen, by simpa using hat, ?_⟩
      intro j hj
      cases j with
      | zero => simpa using hp
      | succ j => simpa using hbefore j (by omega)

theorem findIdxO_some_of_exists (p : α → Bool) (l : List α)
    (h : ∃ a ∈ l, p a = true) : ∃ i, findIdxO p l = some i := by
  cases hf : findIdxO p l with
  | some i => exact ⟨i, rfl⟩
  | none =>
    obtain ⟨a, ha, hp⟩ := h
    rw [(findIdxO_eq_none_iff p l).1 hf a ha] at hp
    cases hp

theorem takeWhile_eq_self_of_all (p : α → Bool) (l : List α) (h : l.all p = true) :
    l.takeWhile p = l := by
  induction l with
  | nil => rfl
  | cons a t ih =>
    simp only [List.all_cons, Bool.and_eq_true] at h
    simp [List.takeWhile_cons, h.1, ih h.2]

theorem dropWhile_eq_nil_of_all (p : α → Bool) (l : List α) (h : l.all p = true) :
    l.dropWhile p = [] := by
  induction l with
  | nil => rfl
  | cons a t ih =>
    simp only [List.all_cons, Bool.and_eq_true] at h
    simp [List.dropWhile_cons, h.1, ih h.2]

theorem digit_ne_special (c : Char) (h : c.isDigit = true) :
    ¬(c = '+') ∧ ¬(c = '-') := by
  constructor <;> intro hc <;> subst hc <;> simp at h

theorem pyFloatAux_digits (cs : List Char) (hne : cs ≠ [])
    (hd : cs.all Char.isDigit = true) :
    pyFloatAux cs = some ((natOfDigits cs : Nat) : ℚ) := by
  unfold pyFloatAux
  rw [takeWhile_eq_self_of_all _ _ hd, dropWhile_eq_nil_of_all _ _ hd]
  have h1 : pyAfterInt cs [] = pyAfterFrac cs [] [] := by
    unfold pyAfterInt
    rfl
  rw [h1]
  unfold pyAfterFrac
  rw [if_neg (by simp [hne])]
  unfold pyExp
  norm_num [natOfDigits]

theorem pyFloat?_digits (s : String) (hd : s.data.all Char.isDigit = true)
    (hne : s.data ≠ []) :
    pyFloat? s = some ((natOfDigits s.data : Nat) : ℚ) := by
  unfold pyFloat?
  cases hs : s.data with
  | nil => exact absurd hs hne
  | cons c t =>
    rw [hs] at hd
    simp only [List.all_cons, Bool.and_eq_true] at hd
    obtain ⟨hplus, hminus⟩ := digit_ne_special c hd.1
    show (if c = '+' then pyFloatAux t
      else if c = '-' then (pyFloatAux t).map (fun q => -q)
      else pyFloatAux (c :: t)) = _
    rw [if_neg hplus, if_neg hminus]
    have hall : (c :: t).all Char.isDigit = true := by simp [hd.1, hd.2]
    exact pyFloatAux_digits (c :: t) (by simp) hall

theorem extract_eq_ok {g : RawGrid} {y : Int} {recs : List ProvinceRecord}
    (h : extract_province_section g y = Except.ok recs) :
    ∃ i, markerRow g = some i ∧ 13 ≤ g.ncols ∧
      recs = processRows y (g.rows.drop (i + 1)) := by
  unfold extract_province_section at h
  by_cases h0 : g.ncols = 0
  · rw [if_pos h0] at h; cases h
  · rw [if_neg h0] at h
    cases hm : markerRow g with
    | none => rw [hm] at h; cases h
    | some i =>
      rw [hm] at h
      replace h : (if g.ncols < 13 then
          (Except.error ExtractError.lengthMismatch : Except ExtractError (List ProvinceRecord))
          else Except.ok (processRows y (g.rows.drop (i + 1)))) = Except.ok recs := h
      by_cases h13 : g.ncols < 13
      · rw [if_pos h13] at h; cases h
      · rw [if_neg h13] at h
        refine ⟨i, rfl, by omega, ?_⟩
        cases h
        rfl

theorem extract_ok_of {g : RawGrid} {y : Int} {i : Nat}
    (hm : markerRow g = some i) (h13 : 13 ≤ g.ncols) :
    extract_province_section g y =
      Except.ok (processRows y (g.rows.drop (i + 1))) := by
  unfold extract_province_section
  rw [if_neg (by omega : ¬g.ncols = 0), hm]
  show (if g.ncols < 13 then
      (Except.error ExtractError.lengthMismatch : Except ExtractError (List ProvinceRecord))
      else Except.ok (processRows y (g.rows.drop (i + 1)))) = _
  rw [if_neg (by omega : ¬g.ncols < 13)]

theorem mem_processRows {y : Int} {rows : List (List Cell)} {r : ProvinceRecord}
    (h : r ∈ processRows y rows) :
    ∃ row, rowKept row = true ∧ r = mkRecord y row := by
  unfold processRows at h
  obtain ⟨row, hrow, rfl⟩ := List.mem_map.1 h
  exact ⟨row, (List.mem_filter.1 hrow).2, rfl⟩

theorem getD_mem_of_lt (l : List α) (i : Nat) (d : α) (h : i < l.length) :
    l.getD i d ∈ l := by
  induction l generalizing i with
  | nil => simp at h
  | cons a t ih =>
    cases i with
    | zero => simp
    | succ i =>
      simp only [List.getD_cons_succ]
      exact List.mem_cons_of_mem a (ih i (by simpa using h))

theorem to_number_neg5 : to_number (Cell.text "-5") = -5 := by
  have h5 : natOfDigits ['5'] = 5 := rfl
  have hfa : pyFloatAux ['5'] = some ((5 : Nat) : ℚ) := by
    rw [pyFloatAux_digits ['5'] (by simp) (by decide), h5]
  have hf : pyFloat? "-5" = some (-((5 : Nat) : ℚ)) := by
    show (pyFloatAux ['5']).map (fun q => -q) = _
    rw [hfa]
    rfl
  show (if pyStrip "-5" = "-" ∨ pyStrip "-5" = "—" ∨ pyStrip "-5" = "–" ∨ pyStrip "-5" = ""
      then (0 : ℚ) else (pyFloat? (stripCommas (pyStrip "-5"))).getD 0) = -5
  rw [if_neg (by decide)]
  have hsc : stripCommas (pyStrip "-5") = "-5" := rfl
  rw [hsc, hf]
  show -((5 : Nat) : ℚ) = -5
  norm_num

/-- C10: `pd_concat` of a pair of tables returns their concatenation in
input order — every input record appears unmodified, the first table's
records before the second's, and the length is the sum of the input
lengths; no deduplication or re-sorting occurs. -/
theorem pd_concat_append (t1 t2 : List ProvinceRecord) :
    pd_concat [t1, t2] = t1 ++ t2 ∧
    (pd_concat [t1, t2]).length = t1.length + t2.length := by
  constructor
  · simp [pd_concat]
  · simp [pd_concat]

/-- C9: the numeric coercion is total and never fails — for every cell
it returns the parsed value when the underlying conversion succeeds and
exactly 0 on any parse or conversion failure (`to_number_fallible` is
the coercion with the failure path made explicit); moreover the row
filter of extraction never inspects the numeric cells, so no cell value
handed to the coercion can make extraction of a row fail. -/
theorem to_number_total_fallback :
    (∀ c : Cell, to_number c = (to_number_fallible c).getD 0) ∧
    (∀ (a b : Cell) (rest rest' : List Cell),
      rowKept (a :: b :: rest) = rowKept (a :: b :: rest')) := by
  constructor
  · intro c
    cases c with
    | missing => rfl
    | num q => rfl
    | text s =>
      by_cases h : pyStrip s = "-" ∨ pyStrip s = "—" ∨ pyStrip s = "–" ∨ pyStrip s = ""
      · show (if pyStrip s = "-" ∨ pyStrip s = "—" ∨ pyStrip s = "–" ∨ pyStrip s = ""
            then (0 : ℚ) else (pyFloat? (stripCommas (pyStrip s))).getD 0) =
          ((if pyStrip s = "-" ∨ pyStrip s = "—" ∨ pyStrip s = "–" ∨ pyStrip s = ""
            then some 0 else pyFloat? (stripCommas (pyStrip s))).getD 0)
        rw [if_pos h, if_pos h]
        rfl
      · show (if pyStrip s = "-" ∨ pyStrip s = "—" ∨ pyStrip s = "–" ∨ pyStrip s = ""
            then (0 : ℚ) else (pyFloat? (stripCommas (pyStrip s))).getD 0) =
          ((if pyStrip s = "-" ∨ pyStrip s = "—" ∨ pyStrip s = "–" ∨ pyStrip s = ""
            then some 0 else pyFloat? (stripCommas (pyStrip s))).getD 0)
        rw [if_neg h, if_neg h]
  · intro a b rest rest'
    rfl

/-- C7: a text cell whose stripped text is a canonical dash variant
(plain hyphen, em dash, en dash) or the empty string coerces to exactly
0, and so does a missing cell. -/
theorem to_number_dash_zero :
    (∀ s : String,
      (pyStrip s = "-" ∨ pyStrip s = "—" ∨ pyStrip s = "–" ∨ pyStrip s = "") →
      to_number (Cell.text s) = 0) ∧
    to_number Cell.missing = 0 := by
  constructor
  · intro s h
    show (if pyStrip s = "-" ∨ pyStrip s = "—" ∨ pyStrip s = "–" ∨ pyStrip s = ""
        then (0 : ℚ) else (pyFloat? (stripCommas (pyStrip s))).getD 0) = 0
    rw [if_pos h]
  · rfl

/-- Witness for C7 at the concrete cell `" — "`. -/
theorem to_number_dash_zero_witness : to_number (Cell.text " — ") = 0 :=
  to_number_dash_zero.1 " — " (Or.inr (Or.inl rfl))

/-- C4 counterexample: the well-formed negative cell text `"-5"` reaches
the extracted record as the negative value −5, so the numeric indicator
fields are not always non-negative. -/
theorem extract_negative_field :
    extract_province_section negGrid 2023 = Except.ok [negRec] ∧
    negRec.Jumlah_Kejadian < 0 := by
  refine ⟨rfl, ?_⟩
  have h : negRec.Jumlah_Kejadian = to_number (Cell.text "-5") := rfl
  rw [h, to_number_neg5]
  norm_num

/-- C4 as amended: malformed or placeholder cell text coerces to exactly
0 (never a negative value), and so does a missing cell; a field can only
be negative when the cell holds a well-formed negative number. -/
theorem to_number_malformed_zero :
    (∀ s : String,
      (pyFloat? (stripCommas (pyStrip s)) = none ∨
        pyStrip s = "-" ∨ pyStrip s = "—" ∨ pyStrip s = "–" ∨ pyStrip s = "") →
      to_number (Cell.text s) = 0) ∧
    to_number Cell.missing = 0 := by
  constructor
  · intro s h
    by_cases hd : pyStrip s = "-" ∨ pyStrip s = "—" ∨ pyStrip s = "–" ∨ pyStrip s = ""
    · show (if pyStrip s = "-" ∨ pyStrip s = "—" ∨ pyStrip s = "–" ∨ pyStrip s = ""
          then (0 : ℚ) else (pyFloat? (stripCommas (pyStrip s))).getD 0) = 0
      rw [if_pos hd]
    · have hn : pyFloat? (stripCommas (pyStrip s)) = none := h.resolve_right hd
      show (if pyStrip s = "-" ∨ pyStrip s = "—" ∨ pyStrip s = "–" ∨ pyStrip s = ""
          then (0 : ℚ) else (pyFloat? (stripCommas (pyStrip s))).getD 0) = 0
      rw [if_neg hd, hn]
      rfl
  · rfl

/-- Witness for C4's amended statement at the malformed cell `"N/A"`. -/
theorem to_number_malformed_zero_witness : to_number (Cell.text "N/A") = 0 :=
  to_number_malformed_zero.1 "N/A" (Or.inl rfl)

/-- C8: a cell whose stripped, de-comma-ed text is a non-empty digit
string coerces to the number those digits denote — the commas are
stripped before parsing. -/
theorem to_number_comma_digits (s : String)
    (hd : (stripCommas (pyStrip s)).data.all Char.isDigit = true)
    (hne : (stripCommas (pyStrip s)).data ≠ []) :
    to_number (Cell.text s) = ((natOfDigits (stripCommas (pyStrip s)).data : Nat) : ℚ) := by
  have hnot : ¬(pyStrip s = "-" ∨ pyStrip s = "—" ∨ pyStrip s = "–" ∨ pyStrip s = "") := by
    rintro (h | h | h | h)
    · rw [h] at hd; exact absurd hd (by decide)
    · rw [h] at hd; exact absurd hd (by decide)
    · rw [h] at hd; exact absurd hd (by decide)
    · rw [h] at hne; exact hne rfl
  show (if pyStrip s = "-" ∨ pyStrip s = "—" ∨ pyStrip s = "–" ∨ pyStrip s = ""
      then (0 : ℚ) else (pyFloat? (stripCommas (pyStrip s))).getD 0) = _
  rw [if_neg hnot, pyFloat?_digits _ hd hne]
  rfl

/-- Witness for C8 at the concrete cell `"1,234"`, whose coercion is
exactly 1234. -/
theorem to_number_comma_digits_witness : to_number (Cell.text "1,234") = (1234 : ℚ) := by
  have h := to_number_comma_digits "1,234" (by decide) (by decide)
  rw [h]
  have he : natOfDigits (stripCommas (pyStrip "1,234")).data = 1234 := rfl
  rw [he]
  norm_num

/-- C5: in every record returned by extraction, the derived
`Total_Dampak_Indikator` equals the sum of the event count,
deaths/missing, injuries, displaced/affected and the three house-damage
tiers — seven fields, recomputed from the record itself (flooded houses
and the facility fields are excluded). -/
theorem total_impact_is_sum (g : RawGrid) (y : Int) (recs : List ProvinceRecord)
    (h : extract_province_section g y = Except.ok recs) :
    ∀ r ∈ recs, r.Total_Dampak_Indikator =
      r.Jumlah_Kejadian + r.Meninggal_Hilang + r.Luka_Luka + r.Mengungsi_Terdampak +
      r.Rumah_Rusak_Berat + r.Rumah_Rusak_Sedang + r.Rumah_Rusak_Ringan := by
  intro r hr
  obtain ⟨i, hm, h13, hrecs⟩ := extract_eq_ok h
  subst hrecs
  obtain ⟨row, hkept, rfl⟩ := mem_processRows hr
  rfl

/-- Witness for C5 on the spec's end-to-end example grid. -/
theorem total_impact_is_sum_witness :
    wRec.Total_Dampak_Indikator =
      wRec.Jumlah_Kejadian + wRec.Meninggal_Hilang + wRec.Luka_Luka +
      wRec.Mengungsi_Terdampak + wRec.Rumah_Rusak_Berat + wRec.Rumah_Rusak_Sedang +
      wRec.Rumah_Rusak_Ringan :=
  total_impact_is_sum wGrid 2023 [wRec] rfl wRec (List.mem_singleton.2 rfl)

/-- C2 counterexample: a data row whose code cell holds the empty string
(not `NaN`) survives the filters, so extraction returns a record with an
empty `Kode_Provinsi`. -/
theorem extract_empty_code_cell_kept :
    (extract_province_section emptyCodeGrid 2023).map
      (fun rs => rs.map (fun r => r.Kode_Provinsi)) = Except.ok [""] := rfl

/-- C2 as amended: every record returned by extraction comes from a data
row whose code and name cells are present (not `NaN`) and whose code
cell's text does not start with `-`; a cell holding the empty string is
not treated as absent, so `Kode_Provinsi` or `Provinsi` may be empty. -/
theorem extract_kept_rows_spec (g : RawGrid) (y : Int) (recs : List ProvinceRecord)
    (h : extract_province_section g y = Except.ok recs) :
    ∀ r ∈ recs, ∃ row : List Cell,
      (row.getD 0 Cell.missing).isMissing = false ∧
      (row.getD 1 Cell.missing).isMissing = false ∧
      startsWithDash (pyStr (row.getD 0 Cell.missing)) = false ∧
      r = mkRecord y row := by
  intro r hr
  obtain ⟨i, hm, h13, hrecs⟩ := extract_eq_ok h
  subst hrecs
  obtain ⟨row, hkept, rfl⟩ := mem_processRows hr
  simp only [rowKept, Bool.and_eq_true, Bool.not_eq_true'] at hkept
  exact ⟨row, hkept.1.1, hkept.1.2, hkept.2, rfl⟩

/-- Witness for C2's amended statement on the example grid's record. -/
theorem extract_kept_rows_spec_witness :
    ∃ row : List Cell,
      (row.getD 0 Cell.missing).isMissing = false ∧
      (row.getD 1 Cell.missing).isMissing = false ∧
      startsWithDash (pyStr (row.getD 0 Cell.missing)) = false ∧
      wRec = mkRecord 2023 row :=
  extract_kept_rows_spec wGrid 2023 [wRec] rfl wRec (List.mem_singleton.2 rfl)

/-- C3 counterexample: a marker-bearing frame that is only two columns
wide does not extract successfully — assigning the 13 schema names to
the sliced frame fails with the length-mismatch error. -/
theorem extract_narrow_grid_errors :
    gridHasMarker narrowGrid = true ∧
    extract_province_section narrowGrid 2023 = Except.error ExtractError.lengthMismatch :=
  ⟨by decide, rfl⟩

/-- C3 as amended: on frames with at least 13 columns extraction
succeeds, a data row shorter than 13 cells is treated as having missing
trailing fields (padded with the empty marker), and columns beyond the
13th are discarded without affecting the result — two marker-aligned
grids agreeing on the first 13 columns of their data rows extract
identically; a frame narrower than 13 columns instead fails with the
length-mismatch error. -/
theorem extract_first13_padded (g g' : RawGrid) (y : Int) (i : Nat)
    (hm : markerRow g = some i) (hm' : markerRow g' = some i)
    (h13 : 13 ≤ g.ncols) (h13' : 13 ≤ g'.ncols)
    (hdata : (g.rows.drop (i + 1)).map (fun r => takePad 13 r Cell.missing) =
      (g'.rows.drop (i + 1)).map (fun r => takePad 13 r Cell.missing)) :
    extract_province_section g y = extract_province_section g' y ∧
    (extract_province_section g y).isOk = true := by
  have e1 := @extract_ok_of g y i hm h13
  have e2 := @extract_ok_of g' y i hm' h13'
  have hp : processRows y (g.rows.drop (i + 1)) = processRows y (g'.rows.drop (i + 1)) := by
    unfold processRows
    rw [hdata]
  rw [e1, e2, hp]
  exact ⟨rfl, rfl⟩

/-- Witness for C3's amended statement: a 13-wide grid with a short data
row and a 14-wide grid carrying an extra column extract identically. -/
theorem extract_first13_padded_witness :
    extract_province_section shortRowGrid 2023 = extract_province_section wideRowGrid 2023 ∧
    (extract_province_section shortRowGrid 2023).isOk = true :=
  extract_first13_padded shortRowGrid wideRowGrid 2023 0 (by decide) (by decide)
    (by decide) (by decide) rfl

/-- C1 counterexample: the zero-column frame contains no marker cell,
yet extraction fails with the index error raised by
`df_raw.columns[0]`, not with the structure error. -/
theorem extract_empty_grid_index_error :
    gridNoMarker emptyGrid = true ∧
    extract_province_section emptyGrid 2023 = Except.error ExtractError.indexError ∧
    ExtractError.indexError ≠ ExtractError.structureError :=
  ⟨by decide, rfl, by decide⟩

/-- C1 as amended: on every grid with no marker cell extraction fails
and returns no record sequence; when the grid has at least one column
the failure is exactly the structure error (a zero-column grid fails
earlier, with an index error). -/
theorem extract_without_marker_errors (g : RawGrid) (y : Int)
    (h : gridNoMarker g = true) :
    (extract_province_section g y).isOk = false ∧
    (0 < g.ncols → extract_province_section g y = Except.error ExtractError.structureError) := by
  have hall : ∀ r ∈ g.rows, ∀ c ∈ frameRow g r, cellHasMarker c = false := by
    intro r hr c hc
    have h1 := (List.all_eq_true.1 h) r hr
    have h2 := (List.all_eq_true.1 h1) c hc
    simpa using h2
  have hmark : 0 < g.ncols → markerRow g = none := by
    intro h0
    have h1 : findIdxO rowFirstColMarker g.rows = none := by
      rw [findIdxO_eq_none_iff]
      intro r hr
      have hne : frameRow g r ≠ [] := takePad_ne_nil g.ncols h0 r Cell.missing
      have hmem := getD_zero_mem (frameRow g r) Cell.missing hne
      have hgd : (frameRow g r).getD 0 Cell.missing = r.getD 0 Cell.missing :=
        takePad_getD_zero g.ncols h0 r Cell.missing
      rw [hgd] at hmem
      exact hall r hr _ hmem
    have h2 : findIdxO (fun r => rowAnyMarker g r) g.rows = none := by
      rw [findIdxO_eq_none_iff]
      intro r hr
      cases hb : rowAnyMarker g r with
      | false => rfl
      | true =>
        obtain ⟨c, hc, hp⟩ := List.any_eq_true.1 hb
        rw [hall r hr c hc] at hp
        cases hp
    unfold markerRow
    rw [h1]
    exact h2
  constructor
  · by_cases h0 : g.ncols = 0
    · unfold extract_province_section
      rw [if_pos h0]
      rfl
    · have hm := hmark (by omega)
      unfold extract_province_section
      rw [if_neg h0, hm]
      rfl
  · intro h0
    unfold extract_province_section
    rw [if_neg (by omega : ¬g.ncols = 0), hmark h0]

/-- Witness for C1's amended statement on a markerless one-column grid. -/
theorem extract_without_marker_errors_witness :
    (extract_province_section plainGrid 2023).isOk = false ∧
    (0 < plainGrid.ncols →
      extract_province_section plainGrid 2023 = Except.error ExtractError.structureError) :=
  extract_without_marker_errors plainGrid 2023 (by decide)

/-- C6: on every grid containing the marker, the chosen marker row is
the lowest-index row whose first-column cell contains the marker as a
case-sensitive substring; only when no first-column cell matches is the
lowest-index row with any matching cell chosen; and any successful
extraction processes exactly the rows strictly after that chosen row. -/
theorem marker_row_first_match (g : RawGrid) (y : Int) (hm : gridHasMarker g = true) :
    ∃ i, markerRow g = some i ∧ i < g.rows.length ∧
      (if g.rows.any rowFirstColMarker = true then
        rowFirstColMarker (g.rows.getD i []) = true ∧
          ∀ j, j < i → rowFirstColMarker (g.rows.getD j []) = false
      else
        rowAnyMarker g (g.rows.getD i []) = true ∧
          ∀ j, j < i → rowAnyMarker g (g.rows.getD j []) = false) ∧
      ∀ recs, extract_province_section g y = Except.ok recs →
        recs = processRows y (g.rows.drop (i + 1)) := by
  cases hfc : findIdxO rowFirstColMarker g.rows with
  | some i =>
    have hmr : markerRow g = some i := by
      unfold markerRow
      rw [hfc]
    obtain ⟨hlen, hat, hbefore⟩ := findIdxO_some_char rowFirstColMarker [] g.rows i hfc
    have hany : g.rows.any rowFirstColMarker = true :=
      List.any_eq_true.2 ⟨g.rows.getD i [], getD_mem_of_lt g.rows i [] hlen, hat⟩
    refine ⟨i, hmr, hlen, ?_, ?_⟩
    · rw [if_pos hany]
      exact ⟨hat, hbefore⟩
    · intro recs hok
      obtain ⟨i', hm', h13, hrecs⟩ := extract_eq_ok hok
      rw [hmr] at hm'
      cases hm'
      exact hrecs
  | none =>
    have hno : ∀ r ∈ g.rows, rowFirstColMarker r = false :=
      (findIdxO_eq_none_iff rowFirstColMarker g.rows).1 hfc
    have hex : ∃ r ∈ g.rows, rowAnyMarker g r = true := by
      unfold gridHasMarker at hm
      exact List.any_eq_true.1 hm
    obtain ⟨i, hfi⟩ := findIdxO_some_of_exists (fun r => rowAnyMarker g r) g.rows hex
    have hmr : markerRow g = some i := by
      unfold markerRow
      rw [hfc]
      exact hfi
    obtain ⟨hlen, hat, hbefore⟩ := findIdxO_some_char (fun r => rowAnyMarker g r) [] g.rows i hfi
    have hanyf : ¬(g.rows.any rowFirstColMarker = true) := by
      intro hb
      obtain ⟨r, hr, hp⟩ := List.any_eq_true.1 hb
      rw [hno r hr] at hp
      cases hp
    refine ⟨i, hmr, hlen, ?_, ?_⟩
    · rw [if_neg hanyf]
      exact ⟨hat, hbefore⟩
    · intro recs hok
      obtain ⟨i', hm', h13, hrecs⟩ := extract_eq_ok hok
      rw [hmr] at hm'
      cases hm'
      exact hrecs

/-- Witness for C6 on the example grid: the marker is found in the first
column of row 0 and extraction processes the rows after it. -/
theorem marker_row_first_match_witness :
    ∃ i, markerRow wGrid = some i ∧ i < wGrid.rows.length ∧
      (if wGrid.rows.any rowFirstColMarker = true then
        rowFirstColMarker (wGrid.rows.getD i []) = true ∧
          ∀ j, j < i → rowFirstColMarker (wGrid.rows.getD j []) = false
      else
        rowAnyMarker wGrid (wGrid.rows.getD i []) = true ∧
          ∀ j, j < i → rowAnyMarker wGrid (wGrid.rows.getD j []) = false) ∧
      ∀ recs, extract_province_section wGrid 2023 = Except.ok recs →
        recs = processRows 2023 (wGrid.rows.drop (i + 1)) :=
  marker_row_first_match wGrid 2023 (by decide)
